import Mathlib

/-!
Verification of the search and ranking subsystem of the datahub repository
(`src/app/api/datasets/search/route.ts`, together with the auth middleware
`requireApiKey` and the storage-error classifier `getDatabaseErrorMessage`).

The route handler is embedded as a pure function `GET` over
  * an `Env` record (the two environment variables the middleware reads),
  * an abstract API-key validator (the `validateApiKey` database lookup),
  * two store executors (the two `pool.query` calls: count and ranked page).
Concrete executors `execCountDB` / `execPageDB` give the standard SQL
semantics of the two generated queries over a list of dataset rows, with the
PostgreSQL text-search primitives (`@@ plainto_tsquery`, `ts_rank`,
`similarity`, the `pg_trgm` threshold of the `%` operator) abstracted as a
`Prims` record, and with PostgreSQL's rejection of NaN / negative
LIMIT/OFFSET values modelled as storage errors.

`GET` also returns the list of store queries it issued, in order, so that
claims about "no store access" and about the shape of the issued queries can
be stated.
-/

namespace Datahub

/-- JavaScript string truthiness of a nullable string (`if (s)`):
`null` and `""` are falsy. -/
def truthy : Option String → Bool
  | none => false
  | some s => s ≠ ""

/-- JavaScript `s || d` for a nullable string `s`: the default is taken when
`s` is `null` or `""`. -/
def jsOr (o : Option String) (d : String) : String :=
  match o with
  | none => d
  | some s => if s = "" then d else s

/-- A JavaScript number as produced by `parseInt`: an integer, or NaN
(modelled as `none`). -/
abbrev JSNum := Option Int

/-- Decimal digit prefix of a character list. -/
def decDigits (cs : List Char) : List Char :=
  cs.takeWhile fun c => '0' ≤ c && c ≤ '9'

/-- Hexadecimal digit prefix of a character list. -/
def hexDigits (cs : List Char) : List Char :=
  cs.takeWhile fun c =>
    ('0' ≤ c && c ≤ '9') || ('a' ≤ c && c ≤ 'f') || ('A' ≤ c && c ≤ 'F')

/-- Value of a list of decimal digits. -/
def decVal (ds : List Char) : Nat :=
  ds.foldl (fun a c => 10 * a + (c.toNat - '0'.toNat)) 0

/-- Value of a list of hexadecimal digits. -/
def hexVal (ds : List Char) : Nat :=
  ds.foldl
    (fun a c =>
      16 * a +
        (if '0' ≤ c && c ≤ '9' then c.toNat - '0'.toNat
         else if 'a' ≤ c && c ≤ 'f' then c.toNat - 'a'.toNat + 10
         else c.toNat - 'A'.toNat + 10))
    0

/-- JavaScript `parseInt(s)` with no radix argument: skip leading
whitespace, take an optional sign, then the longest prefix of decimal digits
(or, after `0x`/`0X`, hexadecimal digits); if that prefix is empty the
result is NaN (`none`). -/
def jsParseInt (s : String) : JSNum :=
  let cs := s.toList.dropWhile fun c =>
    c = ' ' || c = '\t' || c = '\n' || c = '\r' || c = '\x0b' || c = '\x0c'
  let signed : Int × List Char :=
    match cs with
    | '-' :: rest => (-1, rest)
    | '+' :: rest => (1, rest)
    | _ => (1, cs)
  match signed.2 with
  | '0' :: x :: rest =>
    if x = 'x' || x = 'X' then
      let ds := hexDigits rest
      if ds.isEmpty then none else some (signed.1 * hexVal ds)
    else
      let ds := decDigits signed.2
      if ds.isEmpty then none else some (signed.1 * decVal ds)
  | _ =>
    let ds := decDigits signed.2
    if ds.isEmpty then none else some (signed.1 * decVal ds)

/-- JavaScript `Math.min(a, b)` where `a` may be NaN: NaN propagates. -/
def jsMin (a : JSNum) (b : Int) : JSNum :=
  match a with
  | none => none
  | some x => some (min x b)

/-- Split a character list at every comma; a trailing or leading comma and
adjacent commas produce empty pieces, and the empty list is one empty
piece, as with JavaScript `split`. -/
def splitCommaAux : List Char → List (List Char)
  | [] => [[]]
  | c :: rest =>
    match splitCommaAux rest with
    | [] => [[c]]
    | cur :: parts => if c = ',' then [] :: cur :: parts else (c :: cur) :: parts

/-- JavaScript `s.split(",")`. -/
def jsSplitComma (s : String) : List String :=
  (splitCommaAux s.toList).map List.asString

/-- A dataset row, restricted to the columns the search route reads:
the four source fields of the derived `search_vector`
(name, description, tags, owner) and the exact-filter columns
(source_type, status), plus the primary key.  The remaining columns of the
`datasets` table (version, storage pointer, sizes, timestamps, ...) are
carried along by `SELECT *` but never inspected by any predicate or score
expression of the search route. -/
structure Dataset where
  id : String
  name : String
  description : Option String
  source_type : String
  owner : Option String
  tags : List String
  status : String
  deriving Repr, DecidableEq

/-- The PostgreSQL text-search primitives the generated queries delegate to
(external collaborators of the route):
`tsMatch q r` is `r.search_vector @@ plainto_tsquery('english', q)` (the
`search_vector` being derived from name/description/tags/owner by the
`datasets_search_vector_update` trigger, so it is a function of the row);
`tsRank q r` is `ts_rank(r.search_vector, plainto_tsquery('english', q))`;
`similarity a b` is `pg_trgm`'s trigram similarity; `trgmThreshold` is the
similarity threshold of the `%` operator. -/
structure Prims where
  tsMatch : String → Dataset → Bool
  tsRank : String → Dataset → Rat
  similarity : String → String → Rat
  trgmThreshold : Rat

/-- One WHERE-clause conjunct generated by the route, with its bound
parameter inlined. -/
inductive Condition where
  /-- SQL `search_vector @@ plainto_tsquery('english', $i)` -/
  | tsMatch (q : String)
  /-- SQL `(name % $i OR search_vector @@ plainto_tsquery('english', $i))` -/
  | trgmOrTsMatch (q : String)
  /-- SQL `source_type = $i` -/
  | sourceTypeEq (s : String)
  /-- SQL `status = $i` -/
  | statusEq (s : String)
  /-- SQL `owner = $i` -/
  | ownerEq (s : String)
  /-- SQL `tags && $i` (array overlap) -/
  | tagsOverlap (l : List String)
  deriving Repr, DecidableEq

/-- A positional query parameter (`params` array element). -/
inductive Param where
  | str (s : String)
  | num (n : JSNum)
  | strList (l : List String)
  deriving Repr, DecidableEq

/-- The relevance-score expression of the page query
(`scoreExpr`, referencing `$1` = the query string). -/
inductive ScoreExpr where
  /-- SQL `GREATEST(similarity(name, $1), ts_rank(search_vector, plainto_tsquery('english', $1)))` -/
  | greatestSimRank (q : String)
  /-- SQL `ts_rank(search_vector, plainto_tsquery('english', $1))` -/
  | rank (q : String)
  deriving Repr, DecidableEq

/-- Truth value of one condition at one row, under the store primitives.
`owner = $i` is false when `owner` is NULL; `tags && $i` is true exactly
when the two arrays share an element. -/
def evalCond (p : Prims) (r : Dataset) : Condition → Bool
  | .tsMatch q => p.tsMatch q r
  | .trgmOrTsMatch q =>
    (decide (p.trgmThreshold < p.similarity r.name q)) || p.tsMatch q r
  | .sourceTypeEq s => r.source_type == s
  | .statusEq s => r.status == s
  | .ownerEq s => r.owner == some s
  | .tagsOverlap l => r.tags.any fun t => l.contains t

/-- A row satisfies the AND of all conditions (`conditions.join(" AND ")`). -/
def matchesAll (p : Prims) (conds : List Condition) (r : Dataset) : Bool :=
  conds.all (evalCond p r)

/-- Value of the score expression at one row. -/
def relevanceScore (p : Prims) (e : ScoreExpr) (r : Dataset) : Rat :=
  match e with
  | .greatestSimRank q => max (p.similarity r.name q) (p.tsRank q r)
  | .rank q => p.tsRank q r

/-- A row of the page query's result set: the dataset record together with
its attached `relevance_score` column. -/
structure ScoredRow where
  record : Dataset
  relevance_score : Rat
  deriving Repr, DecidableEq

/-- The text-match condition pushed first (`if (fuzzy) ... else ...`). -/
def textCondOf (fuzzy : Bool) (q : String) : Condition :=
  if fuzzy then .trgmOrTsMatch q else .tsMatch q

/-- The score expression of the page query (`const scoreExpr = fuzzy ? ... : ...`). -/
def scoreExprOf (fuzzy : Bool) (q : String) : ScoreExpr :=
  if fuzzy then .greatestSimRank q else .rank q

/-- Conditions contributed by one optional equality filter
(`if (source_type) { conditions.push(...); params.push(source_type); }`). -/
def filterConds (v : Option String) (mk : String → Condition) : List Condition :=
  match v with
  | none => []
  | some s => if s = "" then [] else [mk s]

/-- Parameters contributed by one optional equality filter. -/
def filterParams (v : Option String) : List Param :=
  match v with
  | none => []
  | some s => if s = "" then [] else [Param.str s]

/-- Conditions contributed by the optional `tags` filter
(`tags.split(",")`, then `tags && $i`). -/
def tagsConds (v : Option String) : List Condition :=
  match v with
  | none => []
  | some s => if s = "" then [] else [.tagsOverlap (jsSplitComma s)]

/-- Parameters contributed by the optional `tags` filter. -/
def tagsParams (v : Option String) : List Param :=
  match v with
  | none => []
  | some s => if s = "" then [] else [Param.strList (jsSplitComma s)]

/-- The `conditions` and `params` arrays built by the route, in push order:
text-match condition first, then `source_type`, `status`, `owner`, `tags`
filters, each appended only when its request parameter is truthy. -/
def buildConditionsParams (q : String)
    (source_type status owner tags : Option String) (fuzzy : Bool) :
    List Condition × List Param :=
  ([textCondOf fuzzy q]
      ++ filterConds source_type .sourceTypeEq
      ++ filterConds status .statusEq
      ++ filterConds owner .ownerEq
      ++ tagsConds tags,
   [Param.str q]
      ++ filterParams source_type
      ++ filterParams status
      ++ filterParams owner
      ++ tagsParams tags)

/-- The count query: `SELECT COUNT(*) FROM datasets WHERE <conditions>`
with the shared parameter list. -/
structure CountQuery where
  conditions : List Condition
  params : List Param
  deriving Repr, DecidableEq

/-- The page query: `SELECT *, <scoreExpr> AS relevance_score FROM datasets
WHERE <conditions> ORDER BY relevance_score DESC LIMIT $n OFFSET $n+1`,
with parameter list `params ++ [limit, offset]`. -/
structure PageQuery where
  conditions : List Condition
  score : ScoreExpr
  params : List Param
  limit : JSNum
  offset : JSNum
  deriving Repr, DecidableEq

/-- A storage-layer error value as thrown by the driver: either an object
(possibly carrying string-valued `code`, `column`, `table`, `message`
properties) or a non-object value. -/
inductive ThrownError where
  | obj (code column table message : Option String)
  | nonObject
  deriving Repr, DecidableEq

/-- Function `getDatabaseErrorMessage` from `src/lib/errors.ts`: classify a
storage-layer error into a user-facing message by its PostgreSQL error
code, falling back to the error's own message, then to a fixed string. -/
def getDatabaseErrorMessage (error : ThrownError) : String :=
  match error with
  | .obj code column table message =>
    if code == some "23502" then
      "Missing required field: " ++ jsOr column "unknown column"
        ++ " in " ++ jsOr table "unknown table"
    else if code == some "23505" then
      "Duplicate entry: a record with this value already exists"
    else if code == some "23503" then
      "Invalid reference: the referenced record does not exist"
    else if code == some "23514" then
      "Invalid data: the value does not meet validation requirements"
    else
      match message with
      | some m => m
      | none => "An unknown error occurred"
  | .nonObject => "An unknown error occurred"

/-- An HTTP response produced by the route: either
`NextResponse.json({ error }, { status })` or the success payload
`{ items, total, query }`. -/
inductive Response where
  | err (status : Nat) (message : String)
  | ok (items : List ScoredRow) (total : Int) (query : String)
  deriving Repr, DecidableEq

/-- An API key record (`api_keys` row), restricted to the columns the
middleware inspects; timestamps are irrelevant to control flow. -/
structure ApiKey where
  id : String
  key_hash : String
  name : String
  status : String
  deriving Repr, DecidableEq

/-- The two environment variables read by `requireApiKey`. -/
structure Env where
  DISABLE_API_KEY_AUTH : Option String
  NODE_ENV : Option String
  deriving Repr, DecidableEq

/-- Middleware `requireApiKey` from `src/lib/middleware.ts`, over the value of the
`x-datahub-api-key` header and an abstract `validateApiKey` lookup (a
database read; it returns `none` for unknown, inactive, or erroring keys).
Returns the 401 response on failure, `none` on success or when the
test-only bypass is active. -/
def requireApiKey (env : Env) (validate : String → Option ApiKey)
    (apiKey : Option String) : Option Response :=
  if env.DISABLE_API_KEY_AUTH == some "true" && !(env.NODE_ENV == some "production") then
    none
  else
    match apiKey with
    | none =>
      some (.err 401
        "Missing API key. Please provide a valid API key in the X-DataHub-API-Key header.")
    | some k =>
      if k = "" then
        some (.err 401
          "Missing API key. Please provide a valid API key in the X-DataHub-API-Key header.")
      else
        match validate k with
        | none => some (.err 401 "Invalid or inactive API key.")
        | some _ => none

/-- The query-string parameters of a search request, plus the
`x-datahub-api-key` header. Each is `none` when absent. -/
structure SearchRequest where
  apiKeyHeader : Option String
  q : Option String
  source_type : Option String
  status : Option String
  owner : Option String
  tags : Option String
  fuzzy : Option String
  limit : Option String
  offset : Option String
  deriving Repr, DecidableEq

/-- JavaScript `searchParams.get("fuzzy") === "true"`. -/
def isFuzzy (req : SearchRequest) : Bool :=
  req.fuzzy == some "true"

/-- JavaScript `Math.min(parseInt(searchParams.get("limit") || "20"), 100)`. -/
def effLimit (req : SearchRequest) : JSNum :=
  jsMin (jsParseInt (jsOr req.limit "20")) 100

/-- JavaScript `parseInt(searchParams.get("offset") || "0")`. -/
def effOffset (req : SearchRequest) : JSNum :=
  jsParseInt (jsOr req.offset "0")

/-- The condition/parameter pair the route builds for a request whose `q`
parameter is the string `qs`. -/
def builtQuery (req : SearchRequest) (qs : String) : List Condition × List Param :=
  buildConditionsParams qs req.source_type req.status req.owner req.tags (isFuzzy req)

/-- The count query issued for a request. -/
def builtCountQuery (req : SearchRequest) (qs : String) : CountQuery :=
  ⟨(builtQuery req qs).1, (builtQuery req qs).2⟩

/-- The page query issued for a request: same conditions, parameter list
extended by `[...params, limit, offset]`. -/
def builtPageQuery (req : SearchRequest) (qs : String) : PageQuery :=
  ⟨(builtQuery req qs).1, scoreExprOf (isFuzzy req) qs,
    (builtQuery req qs).2 ++ [Param.num (effLimit req), Param.num (effOffset req)],
    effLimit req, effOffset req⟩

/-- A store query issued by the handler, in issue order. -/
inductive IssuedQuery where
  | count (q : CountQuery)
  | page (q : PageQuery)
  deriving Repr, DecidableEq

/-- The `GET` handler of `src/app/api/datasets/search/route.ts`:
auth middleware first; then the `q` presence check (JS falsiness, so `null`
and `""` both fail) returning 400; then the count query; then the ranked
page query; storage errors from either query are caught and surfaced as a
single 500 with the classified message behind the fixed prefix.  The second
component records the store queries issued, in order. -/
def GET (env : Env) (validate : String → Option ApiKey)
    (execCount : CountQuery → Except ThrownError Int)
    (execPage : PageQuery → Except ThrownError (List ScoredRow))
    (req : SearchRequest) : Response × List IssuedQuery :=
  match requireApiKey env validate req.apiKeyHeader with
  | some authError => (authError, [])
  | none =>
    match req.q with
    | none => (.err 400 "Query parameter \"q\" is required", [])
    | some q =>
      if q = "" then (.err 400 "Query parameter \"q\" is required", [])
      else
        let countQuery := builtCountQuery req q
        match execCount countQuery with
        | .error e =>
          (.err 500 ("Search failed: " ++ getDatabaseErrorMessage e),
           [.count countQuery])
        | .ok total =>
          let pageQuery := builtPageQuery req q
          match execPage pageQuery with
          | .error e =>
            (.err 500 ("Search failed: " ++ getDatabaseErrorMessage e),
             [.count countQuery, .page pageQuery])
          | .ok rows =>
            (.ok rows total q, [.count countQuery, .page pageQuery])

/-! ### Concrete store semantics -/

/-- The rows of the `datasets` table satisfying every WHERE conjunct. -/
def matchedRows (p : Prims) (db : List Dataset) (conds : List Condition) :
    List Dataset :=
  db.filter fun r => matchesAll p conds r

/-- SQL `ORDER BY relevance_score DESC`: later rows never score higher. -/
def scoreDescRel (a b : ScoredRow) : Prop :=
  b.relevance_score ≤ a.relevance_score

instance : DecidableRel scoreDescRel := fun a b =>
  inferInstanceAs (Decidable (b.relevance_score ≤ a.relevance_score))

instance : IsTotal ScoredRow scoreDescRel :=
  ⟨fun a b => le_total b.relevance_score a.relevance_score⟩

instance : IsTrans ScoredRow scoreDescRel :=
  ⟨fun _ _ _ h1 h2 => le_trans h2 h1⟩

/-- The page query's result set before LIMIT/OFFSET: matching rows with
their attached score, sorted by score descending. -/
def rankedRows (p : Prims) (db : List Dataset) (conds : List Condition)
    (e : ScoreExpr) : List ScoredRow :=
  List.insertionSort scoreDescRel
    ((matchedRows p db conds).map fun r => ⟨r, relevanceScore p e r⟩)

/-- PostgreSQL's error for a parameter that does not parse as an integer
(a JS NaN is transmitted as the string "NaN"). -/
def nanParamError : ThrownError :=
  .obj (some "22P02") none none
    (some "invalid input syntax for type bigint: \"NaN\"")

/-- PostgreSQL's error for a negative LIMIT. -/
def limitNegativeError : ThrownError :=
  .obj (some "2201W") none none (some "LIMIT must not be negative")

/-- PostgreSQL's error for a negative OFFSET. -/
def offsetNegativeError : ThrownError :=
  .obj (some "2201X") none none (some "OFFSET must not be negative")

/-- Semantics of the count query over a concrete table: the number of rows
satisfying the conjunction of the conditions. -/
def execCountDB (p : Prims) (db : List Dataset) (cq : CountQuery) :
    Except ThrownError Int :=
  .ok ((matchedRows p db cq.conditions).length : Int)

/-- Semantics of the page query over a concrete table: reject NaN or
negative LIMIT/OFFSET as PostgreSQL does; otherwise filter, score, sort
descending, then apply OFFSET and LIMIT. -/
def execPageDB (p : Prims) (db : List Dataset) (pq : PageQuery) :
    Except ThrownError (List ScoredRow) :=
  match pq.limit, pq.offset with
  | some l, some o =>
    if l < 0 then .error limitNegativeError
    else if o < 0 then .error offsetNegativeError
    else .ok (((rankedRows p db pq.conditions pq.score).drop o.toNat).take l.toNat)
  | _, _ => .error nanParamError

/-! ### Helper lemmas -/

theorem mem_rankedRows {p : Prims} {db : List Dataset} {conds : List Condition}
    {e : ScoreExpr} {it : ScoredRow} (h : it ∈ rankedRows p db conds e) :
    it.record ∈ db ∧ matchesAll p conds it.record = true ∧
      it.relevance_score = relevanceScore p e it.record := by
  unfold rankedRows matchedRows at h
  rw [(List.perm_insertionSort scoreDescRel _).mem_iff] at h
  obtain ⟨r, hr, rfl⟩ := List.mem_map.mp h
  obtain ⟨hdb, hm⟩ := List.mem_filter.mp hr
  exact ⟨hdb, hm, rfl⟩

theorem mem_pageItems {p : Prims} {db : List Dataset} {conds : List Condition}
    {e : ScoreExpr} {it : ScoredRow} {n k : Nat}
    (h : it ∈ ((rankedRows p db conds e).drop n).take k) :
    it.record ∈ db ∧ matchesAll p conds it.record = true ∧
      it.relevance_score = relevanceScore p e it.record :=
  mem_rankedRows (List.drop_subset _ _ (List.take_subset _ _ h))

theorem sorted_pageItems (p : Prims) (db : List Dataset) (conds : List Condition)
    (e : ScoreExpr) (n k : Nat) :
    List.Sorted scoreDescRel (((rankedRows p db conds e).drop n).take k) :=
  List.Pairwise.sublist ((List.take_sublist _ _).trans (List.drop_sublist _ _))
    (List.sorted_insertionSort scoreDescRel _)

/-- Characterization of `GET` with the concrete store semantics on a request
that passes authentication, has a non-empty `q`, and whose effective limit
and offset are non-NaN and non-negative. -/
theorem GET_ok (env : Env) (validate : String → Option ApiKey) (p : Prims)
    (db : List Dataset) (req : SearchRequest) (qs : String) (l o : Int)
    (hauth : requireApiKey env validate req.apiKeyHeader = none)
    (hq : req.q = some qs) (hqne : qs ≠ "")
    (hl : effLimit req = some l) (ho : effOffset req = some o)
    (hl0 : 0 ≤ l) (ho0 : 0 ≤ o) :
    GET env validate (execCountDB p db) (execPageDB p db) req =
      (.ok (((rankedRows p db (builtQuery req qs).1
                (scoreExprOf (isFuzzy req) qs)).drop o.toNat).take l.toNat)
           ((matchedRows p db (builtQuery req qs).1).length : Int) qs,
       [.count (builtCountQuery req qs), .page (builtPageQuery req qs)]) := by
  unfold GET
  rw [hauth, hq]
  dsimp only
  rw [if_neg hqne]
  unfold execCountDB execPageDB builtPageQuery
  dsimp only
  rw [hl, ho]
  dsimp only
  rw [if_neg (not_lt.mpr hl0), if_neg (not_lt.mpr ho0)]
  rfl

/-! ### Concrete fixtures used by witnesses and counterexamples -/

/-- Environment with the test-only auth bypass active. -/
def envBypass : Env := ⟨some "true", some "development"⟩

/-- Environment with auth enforced (production, no bypass). -/
def envProd : Env := ⟨none, some "production"⟩

/-- A key validator that accepts no key. -/
def noValidate : String → Option ApiKey := fun _ => none

/-- Store primitives for tests: every row lexically matches; rank 2 for the
row with id "idA" and 1 otherwise; trigram similarity constantly 0 below
the threshold 1. -/
def pW : Prims :=
  ⟨fun _ _ => true, fun _ r => if r.id = "idA" then 2 else 1, fun _ _ => 0, 1⟩

def recA : Dataset :=
  ⟨"idA", "engineering docs", none, "confluence", some "alice",
   ["engineering", "docs"], "active"⟩

def recB : Dataset :=
  ⟨"idB", "enginering notes", none, "github", none, ["finance"], "active"⟩

/-- A two-row table, deliberately not in score order. -/
def dbW : List Dataset := [recB, recA]

/-- A minimal valid request (only `q` supplied). -/
def reqW : SearchRequest :=
  ⟨none, some "handbook", none, none, none, none, none, none, none⟩

/-! ### Claims -/

/-- C1: for every search request (that passes authentication, has a
non-empty `q`, and whose limit/offset are well-formed so the page query
runs), the relevance score attached to each returned record is the lexical
rank `ts_rank` in non-fuzzy mode and `max(similarity(name, q), ts_rank)` in
fuzzy mode, and the returned items are ordered descending by this score. -/
theorem search_relevance_score_and_ordering
    (env : Env) (validate : String → Option ApiKey) (p : Prims) (db : List Dataset)
    (req : SearchRequest) (qs : String) (l o : Int)
    (hauth : requireApiKey env validate req.apiKeyHeader = none)
    (hq : req.q = some qs) (hqne : qs ≠ "")
    (hl : effLimit req = some l) (ho : effOffset req = some o)
    (hl0 : 0 ≤ l) (ho0 : 0 ≤ o) :
    ∃ items total log,
      GET env validate (execCountDB p db) (execPageDB p db) req =
        (.ok items total qs, log) ∧
      (∀ it ∈ items,
        it.relevance_score =
          if isFuzzy req then max (p.similarity it.record.name qs) (p.tsRank qs it.record)
          else p.tsRank qs it.record) ∧
      List.Sorted scoreDescRel items := by
  refine ⟨_, _, _, GET_ok env validate p db req qs l o hauth hq hqne hl ho hl0 ho0,
    ?_, sorted_pageItems ..⟩
  intro it hit
  obtain ⟨-, -, hscore⟩ := mem_pageItems hit
  rw [hscore]
  cases hf : isFuzzy req <;> simp [scoreExprOf, relevanceScore, hf]

theorem search_relevance_score_and_ordering_witness :
    ∃ items total log,
      GET envBypass noValidate (execCountDB pW dbW) (execPageDB pW dbW) reqW =
        (.ok items total "handbook", log) ∧
      (∀ it ∈ items,
        it.relevance_score =
          if isFuzzy reqW then max (pW.similarity it.record.name "handbook") (pW.tsRank "handbook" it.record)
          else pW.tsRank "handbook" it.record) ∧
      List.Sorted scoreDescRel items :=
  search_relevance_score_and_ordering envBypass noValidate pW dbW reqW "handbook" 20 0
    rfl rfl (by decide) rfl rfl (by decide) (by decide)

/-- C2: for every query string, every combination of filters, and every
store interpretation, a record satisfying the non-fuzzy predicate set also
satisfies the fuzzy predicate set: fuzzy mode's result set is a superset of
non-fuzzy mode's. -/
theorem search_fuzzy_superset (p : Prims) (db : List Dataset) (q : String)
    (source_type status owner tags : Option String) (r : Dataset)
    (hr : r ∈ matchedRows p db (buildConditionsParams q source_type status owner tags false).1) :
    r ∈ matchedRows p db (buildConditionsParams q source_type status owner tags true).1 := by
  rw [matchedRows, List.mem_filter] at hr ⊢
  refine ⟨hr.1, ?_⟩
  have hm := hr.2
  simp only [matchesAll, buildConditionsParams, textCondOf, if_true, if_false,
    Bool.false_eq_true, List.all_append, List.all_cons, List.all_nil,
    Bool.and_eq_true, Bool.and_true, and_true, Bool.or_eq_true,
    evalCond] at hm ⊢
  tauto

theorem search_fuzzy_superset_witness :
    recA ∈ matchedRows pW dbW
      (buildConditionsParams "handbook" (some "confluence") none none none true).1 :=
  search_fuzzy_superset pW dbW "handbook" (some "confluence") none none none recA (by decide)

/-- C5: for every request that passes authentication but whose `q` is
absent or the empty string, the handler returns HTTP 400 with the exact
message, and issues no store query at all (for arbitrary store executors). -/
theorem search_missing_q_bad_request (env : Env) (validate : String → Option ApiKey)
    (execCount : CountQuery → Except ThrownError Int)
    (execPage : PageQuery → Except ThrownError (List ScoredRow))
    (req : SearchRequest)
    (hauth : requireApiKey env validate req.apiKeyHeader = none)
    (hq : req.q = none ∨ req.q = some "") :
    GET env validate execCount execPage req =
      (.err 400 "Query parameter \"q\" is required", []) := by
  unfold GET
  rw [hauth]
  rcases hq with h | h <;> simp [h]

theorem search_missing_q_bad_request_witness :
    GET envBypass noValidate (execCountDB pW dbW) (execPageDB pW dbW)
      { reqW with q := none } =
      (.err 400 "Query parameter \"q\" is required", []) :=
  search_missing_q_bad_request envBypass noValidate _ _ _ rfl (Or.inl rfl)

/-- C3: for every valid search request, the count query carries the same
condition list as the page query, the page query's parameter list is the
count query's with exactly the limit and offset appended, the returned
total is the number of table rows satisfying the conditions (an expression
independent of limit and offset), and the success payload echoes the
original `q` string. -/
theorem search_count_consistency
    (env : Env) (validate : String → Option ApiKey) (p : Prims) (db : List Dataset)
    (req : SearchRequest) (qs : String) (l o : Int)
    (hauth : requireApiKey env validate req.apiKeyHeader = none)
    (hq : req.q = some qs) (hqne : qs ≠ "")
    (hl : effLimit req = some l) (ho : effOffset req = some o)
    (hl0 : 0 ≤ l) (ho0 : 0 ≤ o) :
    ∃ items,
      GET env validate (execCountDB p db) (execPageDB p db) req =
        (.ok items ((matchedRows p db (builtCountQuery req qs).conditions).length : Int) qs,
         [.count (builtCountQuery req qs), .page (builtPageQuery req qs)]) ∧
      (builtPageQuery req qs).conditions = (builtCountQuery req qs).conditions ∧
      (builtPageQuery req qs).params =
        (builtCountQuery req qs).params
          ++ [Param.num (effLimit req), Param.num (effOffset req)] :=
  ⟨_, GET_ok env validate p db req qs l o hauth hq hqne hl ho hl0 ho0, rfl, rfl⟩

theorem search_count_consistency_witness :
    ∃ items,
      GET envBypass noValidate (execCountDB pW dbW) (execPageDB pW dbW) reqW =
        (.ok items ((matchedRows pW dbW (builtCountQuery reqW "handbook").conditions).length : Int)
           "handbook",
         [.count (builtCountQuery reqW "handbook"), .page (builtPageQuery reqW "handbook")]) ∧
      (builtPageQuery reqW "handbook").conditions = (builtCountQuery reqW "handbook").conditions ∧
      (builtPageQuery reqW "handbook").params =
        (builtCountQuery reqW "handbook").params
          ++ [Param.num (effLimit reqW), Param.num (effOffset reqW)] :=
  search_count_consistency envBypass noValidate pW dbW reqW "handbook" 20 0
    rfl rfl (by decide) rfl rfl (by decide) (by decide)

/-- C4: for every valid search request carrying a `tags` filter, each
returned record's tag array overlaps the comma-split tag list (set-overlap,
not subset or equality), and every supplied exact filter as well as the
text-match predicate hold of the record — all AND-combined, in both fuzzy
and non-fuzzy mode. -/
theorem search_tags_overlap_and_filter_conjunction
    (env : Env) (validate : String → Option ApiKey) (p : Prims) (db : List Dataset)
    (req : SearchRequest) (qs ts : String) (l o : Int)
    (hauth : requireApiKey env validate req.apiKeyHeader = none)
    (hq : req.q = some qs) (hqne : qs ≠ "")
    (hl : effLimit req = some l) (ho : effOffset req = some o)
    (hl0 : 0 ≤ l) (ho0 : 0 ≤ o)
    (htags : req.tags = some ts) (htne : ts ≠ "") :
    ∃ items total log,
      GET env validate (execCountDB p db) (execPageDB p db) req =
        (.ok items total qs, log) ∧
      ∀ it ∈ items,
        (it.record.tags.any fun t => (jsSplitComma ts).contains t) = true ∧
        evalCond p it.record (textCondOf (isFuzzy req) qs) = true ∧
        (∀ s, req.source_type = some s → s ≠ "" → it.record.source_type = s) ∧
        (∀ s, req.status = some s → s ≠ "" → it.record.status = s) ∧
        (∀ s, req.owner = some s → s ≠ "" → it.record.owner = some s) := by
  refine ⟨_, _, _, GET_ok env validate p db req qs l o hauth hq hqne hl ho hl0 ho0, ?_⟩
  intro it hit
  obtain ⟨-, hm, -⟩ := mem_pageItems hit
  simp only [builtQuery, buildConditionsParams, matchesAll, List.all_append,
    List.all_cons, List.all_nil, Bool.and_eq_true, Bool.and_true, and_true] at hm
  obtain ⟨⟨⟨⟨ht, hst⟩, hstat⟩, how⟩, htg⟩ := hm
  refine ⟨?_, ht, ?_, ?_, ?_⟩
  · rw [htags] at htg
    simp only [tagsConds, if_neg htne, List.all_cons, List.all_nil, Bool.and_true,
      evalCond] at htg
    exact htg
  · intro s hs hsne
    rw [hs] at hst
    simp only [filterConds, if_neg hsne, List.all_cons, List.all_nil, Bool.and_true,
      evalCond] at hst
    simpa using hst
  · intro s hs hsne
    rw [hs] at hstat
    simp only [filterConds, if_neg hsne, List.all_cons, List.all_nil, Bool.and_true,
      evalCond] at hstat
    simpa using hstat
  · intro s hs hsne
    rw [hs] at how
    simp only [filterConds, if_neg hsne, List.all_cons, List.all_nil, Bool.and_true,
      evalCond] at how
    simpa using how

theorem search_tags_overlap_and_filter_conjunction_witness :
    ∃ items total log,
      GET envBypass noValidate (execCountDB pW dbW) (execPageDB pW dbW)
        { reqW with tags := some "docs,finance" } =
        (.ok items total "handbook", log) ∧
      ∀ it ∈ items,
        (it.record.tags.any fun t => (jsSplitComma "docs,finance").contains t) = true ∧
        evalCond pW it.record
          (textCondOf (isFuzzy { reqW with tags := some "docs,finance" }) "handbook") = true ∧
        (∀ s, ({ reqW with tags := some "docs,finance" } : SearchRequest).source_type = some s →
          s ≠ "" → it.record.source_type = s) ∧
        (∀ s, ({ reqW with tags := some "docs,finance" } : SearchRequest).status = some s →
          s ≠ "" → it.record.status = s) ∧
        (∀ s, ({ reqW with tags := some "docs,finance" } : SearchRequest).owner = some s →
          s ≠ "" → it.record.owner = some s) :=
  search_tags_overlap_and_filter_conjunction envBypass noValidate pW dbW
    { reqW with tags := some "docs,finance" } "handbook" "docs,finance" 20 0
    rfl rfl (by decide) rfl rfl (by decide) (by decide) rfl (by decide)

/-- C8: for every valid search request whose count step yields total = 0,
the response is a success with an empty items list and total 0 — no
error. -/
theorem search_zero_total_empty_items
    (env : Env) (validate : String → Option ApiKey) (p : Prims) (db : List Dataset)
    (req : SearchRequest) (qs : String) (l o : Int)
    (hauth : requireApiKey env validate req.apiKeyHeader = none)
    (hq : req.q = some qs) (hqne : qs ≠ "")
    (hl : effLimit req = some l) (ho : effOffset req = some o)
    (hl0 : 0 ≤ l) (ho0 : 0 ≤ o)
    (hzero : execCountDB p db (builtCountQuery req qs) = .ok 0) :
    GET env validate (execCountDB p db) (execPageDB p db) req =
      (.ok [] 0 qs, [.count (builtCountQuery req qs), .page (builtPageQuery req qs)]) := by
  have h := GET_ok env validate p db req qs l o hauth hq hqne hl ho hl0 ho0
  rw [h]
  have hlen : (matchedRows p db (builtQuery req qs).1).length = 0 := by
    have := congrArg (fun x => match x with | Except.ok n => n | Except.error _ => (1 : Int)) hzero
    simpa [execCountDB, builtCountQuery] using this
  have hnil : matchedRows p db (builtQuery req qs).1 = [] :=
    List.length_eq_zero.mp hlen
  simp [rankedRows, hnil, hlen]

theorem search_zero_total_empty_items_witness :
    GET envBypass noValidate (execCountDB pW []) (execPageDB pW []) reqW =
      (.ok [] 0 "handbook",
       [.count (builtCountQuery reqW "handbook"), .page (builtPageQuery reqW "handbook")]) :=
  search_zero_total_empty_items envBypass noValidate pW [] reqW "handbook" 20 0
    rfl rfl (by decide) rfl rfl (by decide) (by decide) rfl

/-- C9: for every valid search request and arbitrary store behavior, a
storage failure in the count step or in the page step makes the whole
operation return a single HTTP 500 whose message is the fixed prefix
"Search failed: " followed by the classified storage error message, with no
partial result payload. -/
theorem search_storage_failure_single_error
    (env : Env) (validate : String → Option ApiKey)
    (execCount : CountQuery → Except ThrownError Int)
    (execPage : PageQuery → Except ThrownError (List ScoredRow))
    (req : SearchRequest) (qs : String)
    (hauth : requireApiKey env validate req.apiKeyHeader = none)
    (hq : req.q = some qs) (hqne : qs ≠ "") :
    (∀ e, execCount (builtCountQuery req qs) = .error e →
      GET env validate execCount execPage req =
        (.err 500 ("Search failed: " ++ getDatabaseErrorMessage e),
         [.count (builtCountQuery req qs)])) ∧
    (∀ total e, execCount (builtCountQuery req qs) = .ok total →
      execPage (builtPageQuery req qs) = .error e →
      GET env validate execCount execPage req =
        (.err 500 ("Search failed: " ++ getDatabaseErrorMessage e),
         [.count (builtCountQuery req qs), .page (builtPageQuery req qs)])) := by
  constructor
  · intro e he
    unfold GET
    rw [hauth, hq]
    dsimp only
    rw [if_neg hqne, he]
  · intro total e hc he
    unfold GET
    rw [hauth, hq]
    dsimp only
    rw [if_neg hqne, hc]
    rw [he]

theorem search_storage_failure_single_error_witness :
    GET envBypass noValidate (execCountDB pW dbW)
      (fun _ => .error ThrownError.nonObject) reqW =
      (.err 500 ("Search failed: " ++ getDatabaseErrorMessage ThrownError.nonObject),
       [.count (builtCountQuery reqW "handbook"), .page (builtPageQuery reqW "handbook")]) :=
  (search_storage_failure_single_error envBypass noValidate (execCountDB pW dbW)
    (fun _ => .error ThrownError.nonObject) reqW "handbook" rfl rfl (by decide)).2
    2 ThrownError.nonObject rfl rfl

/-- C10: for every request lacking a valid API key (missing, empty, or
rejected key, with the auth bypass disabled), the handler returns the
middleware's 401 error before `q` is validated and before any store query
is issued; in particular it never returns the 400 MissingQuery response,
even when `q` is absent. -/
theorem search_auth_precedes_validation
    (env : Env) (validate : String → Option ApiKey)
    (execCount : CountQuery → Except ThrownError Int)
    (execPage : PageQuery → Except ThrownError (List ScoredRow))
    (req : SearchRequest)
    (hbypass : ¬ (env.DISABLE_API_KEY_AUTH = some "true" ∧ env.NODE_ENV ≠ some "production"))
    (hkey : req.apiKeyHeader = none ∨ req.apiKeyHeader = some "" ∨
      (∃ k, req.apiKeyHeader = some k ∧ validate k = none)) :
    ∃ m, GET env validate execCount execPage req = (.err 401 m, []) ∧
      (Response.err 401 m) ≠ .err 400 "Query parameter \"q\" is required" := by
  have hb : (env.DISABLE_API_KEY_AUTH == some "true"
      && !(env.NODE_ENV == some "production")) = false := by
    cases hDB : env.DISABLE_API_KEY_AUTH == some "true" with
    | false => simp [hDB]
    | true =>
      cases hNE : env.NODE_ENV == some "production" with
      | true => simp [hNE]
      | false =>
        exact absurd ⟨by simpa using hDB, by simpa using hNE⟩ hbypass
  have hauth : ∃ m, requireApiKey env validate req.apiKeyHeader = some (.err 401 m) := by
    unfold requireApiKey
    simp only [hb, Bool.false_eq_true, if_false]
    rcases hkey with h | h | ⟨k, hk, hv⟩
    · rw [h]; exact ⟨_, rfl⟩
    · rw [h]; exact ⟨_, rfl⟩
    · rw [hk]
      dsimp only
      by_cases hke : k = ""
      · rw [if_pos hke]; exact ⟨_, rfl⟩
      · rw [if_neg hke, hv]; exact ⟨_, rfl⟩
  obtain ⟨m, hm⟩ := hauth
  refine ⟨m, ?_, by simp⟩
  unfold GET
  rw [hm]

theorem search_auth_precedes_validation_witness :
    ∃ m, GET envProd noValidate (execCountDB pW dbW) (execPageDB pW dbW)
      { reqW with q := none, apiKeyHeader := some "dh_bogus" } = (.err 401 m, []) ∧
      (Response.err 401 m) ≠ .err 400 "Query parameter \"q\" is required" :=
  search_auth_precedes_validation envProd noValidate (execCountDB pW dbW) (execPageDB pW dbW)
    { reqW with q := none, apiKeyHeader := some "dh_bogus" }
    (by simp [envProd]) (Or.inr (Or.inr ⟨"dh_bogus", rfl, rfl⟩))

/-- C6 counterexample: with `limit=0`, the effective limit used for the
page query is 0, which does not lie in [1, 100]; the request is processed
with it (two records match, total is 2, yet zero items are returned), so
the effective limit is not clamped to [1, 100]. -/
theorem search_limit_clamp_counterexample :
    effLimit { reqW with limit := some "0" } = some 0 ∧
    ¬ ((1 : Int) ≤ 0) ∧
    (GET envBypass noValidate (execCountDB pW dbW) (execPageDB pW dbW)
      { reqW with limit := some "0" }).1 = .ok [] 2 "handbook" :=
  ⟨rfl, by decide, by decide⟩

/-- C6 amended: the effective limit is `min(parseInt(limit), 100)` with
default 20 — capped above at 100 but not clamped below: 0 is used as-is and
negative values reach the store, which rejects them, surfacing a handled
500 response (not a crash); the effective offset defaults to 0 and is not
clamped below; an offset at or beyond total yields an empty items list with
the correct total. -/
theorem search_pagination_amended
    (env : Env) (validate : String → Option ApiKey) (p : Prims) (db : List Dataset)
    (req : SearchRequest) (qs : String) (l o : Int)
    (hauth : requireApiKey env validate req.apiKeyHeader = none)
    (hq : req.q = some qs) (hqne : qs ≠ "") :
    (req.limit = none → effLimit req = some 20) ∧
    (req.offset = none → effOffset req = some 0) ∧
    (∀ n : Int, jsParseInt (jsOr req.limit "20") = some n → effLimit req = some (min n 100)) ∧
    (∀ n : Int, effLimit req = some n → n ≤ 100) ∧
    (effLimit req = some l → effOffset req = some o → 0 ≤ l → 0 ≤ o →
      ∃ items log,
        GET env validate (execCountDB p db) (execPageDB p db) req =
          (.ok items ((matchedRows p db (builtQuery req qs).1).length : Int) qs, log) ∧
        ((matchedRows p db (builtQuery req qs).1).length ≤ o.toNat → items = [])) ∧
    (effLimit req = some l → effOffset req = some o → l < 0 →
      GET env validate (execCountDB p db) (execPageDB p db) req =
        (.err 500 ("Search failed: " ++ getDatabaseErrorMessage limitNegativeError),
         [.count (builtCountQuery req qs), .page (builtPageQuery req qs)])) := by
  refine ⟨?_, ?_, ?_, ?_, ?_, ?_⟩
  · intro h
    unfold effLimit jsOr
    rw [h]
    decide
  · intro h
    unfold effOffset jsOr
    rw [h]
    decide
  · intro n h
    unfold effLimit jsMin
    rw [h]
  · intro n h
    unfold effLimit jsMin at h
    cases hp : jsParseInt (jsOr req.limit "20") with
    | none => rw [hp] at h; exact absurd h (by simp)
    | some m =>
      rw [hp] at h
      have : min m 100 = n := by simpa using h
      omega
  · intro hl ho hl0 ho0
    refine ⟨_, _, GET_ok env validate p db req qs l o hauth hq hqne hl ho hl0 ho0, ?_⟩
    intro hlen
    have hranklen : (rankedRows p db (builtQuery req qs).1
        (scoreExprOf (isFuzzy req) qs)).length ≤ o.toNat := by
      rw [rankedRows, (List.perm_insertionSort scoreDescRel _).length_eq,
        List.length_map]
      exact hlen
    rw [List.drop_eq_nil_of_le hranklen, List.take_nil]
  · intro hl ho hlneg
    unfold GET
    rw [hauth, hq]
    dsimp only
    rw [if_neg hqne]
    unfold execCountDB execPageDB builtPageQuery
    dsimp only
    rw [hl, ho]
    dsimp only
    rw [if_pos hlneg]

theorem search_pagination_amended_witness :
    (({ reqW with limit := some "0" } : SearchRequest).limit = none →
      effLimit { reqW with limit := some "0" } = some 20) ∧
    (({ reqW with limit := some "0" } : SearchRequest).offset = none →
      effOffset { reqW with limit := some "0" } = some 0) ∧
    (∀ n : Int, jsParseInt (jsOr ({ reqW with limit := some "0" } : SearchRequest).limit "20") = some n →
      effLimit { reqW with limit := some "0" } = some (min n 100)) ∧
    (∀ n : Int, effLimit { reqW with limit := some "0" } = some n → n ≤ 100) ∧
    (effLimit { reqW with limit := some "0" } = some 0 →
      effOffset { reqW with limit := some "0" } = some 0 → 0 ≤ (0 : Int) → 0 ≤ (0 : Int) →
      ∃ items log,
        GET envBypass noValidate (execCountDB pW dbW) (execPageDB pW dbW)
          { reqW with limit := some "0" } =
          (.ok items
            ((matchedRows pW dbW (builtQuery { reqW with limit := some "0" } "handbook").1).length : Int)
            "handbook", log) ∧
        ((matchedRows pW dbW (builtQuery { reqW with limit := some "0" } "handbook").1).length ≤
          (0 : Int).toNat → items = [])) ∧
    (effLimit { reqW with limit := some "0" } = some 0 →
      effOffset { reqW with limit := some "0" } = some 0 → (0 : Int) < 0 →
      GET envBypass noValidate (execCountDB pW dbW) (execPageDB pW dbW)
        { reqW with limit := some "0" } =
        (.err 500 ("Search failed: " ++ getDatabaseErrorMessage limitNegativeError),
         [.count (builtCountQuery { reqW with limit := some "0" } "handbook"),
          .page (builtPageQuery { reqW with limit := some "0" } "handbook")])) :=
  search_pagination_amended envBypass noValidate pW dbW
    { reqW with limit := some "0" } "handbook" 0 0 rfl rfl (by decide)

/-- C7 counterexample: with `limit=abc`, `parseInt` yields NaN, the
effective limit is NaN (not the default 20), and the request fails with a
500 storage error — it is not processed as if the parameter were absent,
and an error is raised. -/
theorem search_malformed_limit_counterexample :
    jsParseInt "abc" = none ∧
    effLimit { reqW with limit := some "abc" } = none ∧
    (GET envBypass noValidate (execCountDB pW dbW) (execPageDB pW dbW)
      { reqW with limit := some "abc" }).1 =
      .err 500 "Search failed: invalid input syntax for type bigint: \"NaN\"" :=
  ⟨rfl, rfl, by decide⟩

/-- C7 amended: only an absent or empty-string `limit`/`offset` falls back
to the defaults (20 and 0); a value with no parseable numeric prefix
yields NaN, which is forwarded to the store as the LIMIT/OFFSET parameter
and causes the request to fail with a 500 storage error instead of falling
back to the defaults; a value with a numeric prefix parses leniently to
that prefix (capped at 100 for the limit). -/
theorem search_lenient_numeric_parsing_amended
    (env : Env) (validate : String → Option ApiKey) (p : Prims) (db : List Dataset)
    (req : SearchRequest) (qs : String)
    (hauth : requireApiKey env validate req.apiKeyHeader = none)
    (hq : req.q = some qs) (hqne : qs ≠ "") :
    (req.limit = none ∨ req.limit = some "" → effLimit req = some 20) ∧
    (req.offset = none ∨ req.offset = some "" → effOffset req = some 0) ∧
    (∀ s n, req.limit = some s → jsParseInt s = some n → s ≠ "" →
      effLimit req = some (min n 100)) ∧
    (∀ s n, req.offset = some s → jsParseInt s = some n → s ≠ "" →
      effOffset req = some n) ∧
    (∀ s, req.limit = some s → s ≠ "" → jsParseInt s = none →
      GET env validate (execCountDB p db) (execPageDB p db) req =
        (.err 500 ("Search failed: " ++ getDatabaseErrorMessage nanParamError),
         [.count (builtCountQuery req qs), .page (builtPageQuery req qs)])) ∧
    (∀ s, req.offset = some s → s ≠ "" → jsParseInt s = none →
      GET env validate (execCountDB p db) (execPageDB p db) req =
        (.err 500 ("Search failed: " ++ getDatabaseErrorMessage nanParamError),
         [.count (builtCountQuery req qs), .page (builtPageQuery req qs)])) := by
  refine ⟨?_, ?_, ?_, ?_, ?_, ?_⟩
  · rintro (h | h) <;> (unfold effLimit jsOr; rw [h]; decide)
  · rintro (h | h) <;> (unfold effOffset jsOr; rw [h]; decide)
  · intro s n hs hn hsne
    unfold effLimit jsOr jsMin
    rw [hs]
    dsimp only
    rw [if_neg hsne, hn]
  · intro s n hs hn hsne
    unfold effOffset jsOr
    rw [hs]
    dsimp only
    rw [if_neg hsne, hn]
  · intro s hs hsne hn
    have hleff : effLimit req = none := by
      unfold effLimit jsOr jsMin
      rw [hs]
      dsimp only
      rw [if_neg hsne, hn]
    unfold GET
    rw [hauth, hq]
    dsimp only
    rw [if_neg hqne]
    unfold execCountDB execPageDB builtPageQuery
    dsimp only
    rw [hleff]
  · intro s hs hsne hn
    have hoeff : effOffset req = none := by
      unfold effOffset jsOr
      rw [hs]
      dsimp only
      rw [if_neg hsne, hn]
    unfold GET
    rw [hauth, hq]
    dsimp only
    rw [if_neg hqne]
    unfold execCountDB execPageDB builtPageQuery
    dsimp only
    rw [hoeff]
    cases effLimit req with
    | none => rfl
    | some l => rfl

theorem search_lenient_numeric_parsing_amended_witness :
    (({ reqW with limit := some "abc", offset := some "xyz" } : SearchRequest).limit = none ∨
      ({ reqW with limit := some "abc", offset := some "xyz" } : SearchRequest).limit = some "" →
      effLimit { reqW with limit := some "abc", offset := some "xyz" } = some 20) ∧
    (({ reqW with limit := some "abc", offset := some "xyz" } : SearchRequest).offset = none ∨
      ({ reqW with limit := some "abc", offset := some "xyz" } : SearchRequest).offset = some "" →
      effOffset { reqW with limit := some "abc", offset := some "xyz" } = some 0) ∧
    (∀ s n, ({ reqW with limit := some "abc", offset := some "xyz" } : SearchRequest).limit = some s →
      jsParseInt s = some n → s ≠ "" →
      effLimit { reqW with limit := some "abc", offset := some "xyz" } = some (min n 100)) ∧
    (∀ s n, ({ reqW with limit := some "abc", offset := some "xyz" } : SearchRequest).offset = some s →
      jsParseInt s = some n → s ≠ "" →
      effOffset { reqW with limit := some "abc", offset := some "xyz" } = some n) ∧
    (∀ s, ({ reqW with limit := some "abc", offset := some "xyz" } : SearchRequest).limit = some s →
      s ≠ "" → jsParseInt s = none →
      GET envBypass noValidate (execCountDB pW dbW) (execPageDB pW dbW)
        { reqW with limit := some "abc", offset := some "xyz" } =
        (.err 500 ("Search failed: " ++ getDatabaseErrorMessage nanParamError),
         [.count (builtCountQuery { reqW with limit := some "abc", offset := some "xyz" } "handbook"),
          .page (builtPageQuery { reqW with limit := some "abc", offset := some "xyz" } "handbook")])) ∧
    (∀ s, ({ reqW with limit := some "abc", offset := some "xyz" } : SearchRequest).offset = some s →
      s ≠ "" → jsParseInt s = none →
      GET envBypass noValidate (execCountDB pW dbW) (execPageDB pW dbW)
        { reqW with limit := some "abc", offset := some "xyz" } =
        (.err 500 ("Search failed: " ++ getDatabaseErrorMessage nanParamError),
         [.count (builtCountQuery { reqW with limit := some "abc", offset := some "xyz" } "handbook"),
          .page (builtPageQuery { reqW with limit := some "abc", offset := some "xyz" } "handbook")])) :=
  search_lenient_numeric_parsing_amended envBypass noValidate pW dbW
    { reqW with limit := some "abc", offset := some "xyz" } "handbook" rfl rfl (by decide)

end Datahub
